import Mathlib

/-!
Shallow embedding of the TUS resumable-upload core of the
`cf-file-sharing-platform` repository.

The embedded code is:
* `src/durable/TusUploadHandler.ts` — the upload-session Durable Object
  (actor): `createUpload`, `getUploadStatus`, `uploadPart`,
  `completeUpload`, `writeMetadataToD1`, `deleteUpload`, `alarm`.
* the TUS protocol adapter (`handleTusUploadCreation` from
  `src/api/upload-tus.ts`), for the creation-time size validation.

Modelling choices, all stated explicitly:
* The SQLite storage of the Durable Object is modelled as a record `DOState`
  holding the single `upload_info` row (an `Option UploadInfo`), the
  `uploaded_parts` table (a list, kept in insertion order, which is also
  ascending `part_number` order because part numbers are assigned as
  `parts.length + 1`), and the scheduled alarm.  The SQLite layer itself
  is modelled as reliable (the catch-and-log paths of the source around
  `sql.exec` are not failure modes the claims are about).
* External I/O (R2 blob store, D1 metadata database) is modelled by an
  oracle `ExtEnv` that fixes the outcome of each kind of call during one
  actor operation, and every operation additionally returns the list of
  external calls it made (`Effect`), so that "opens the multipart upload
  only once", "exactly one metadata insert", "the blob is not deleted"
  are statable.
* `Date.now()` and `crypto.randomUUID()` are read from the oracle
  (`now`, `freshUuid`).
* Chunk payloads are modelled by their byte length (`data.byteLength` is
  all the actor reads from them); the R2 etag of an uploaded part comes
  from the oracle.
* `JSON.stringify`/`JSON.parse` of the custom metadata round-trips, so
  the metadata map is carried as an association list unchanged.
-/

namespace TusModel

/-- Maximum upload size (5GB), `TUS_MAX_SIZE` in the source. -/
def TUS_MAX_SIZE : Nat := 5 * 1024 * 1024 * 1024

/-- Upload session expiration time in milliseconds (7 days),
`UPLOAD_EXPIRATION_MS` in the source. -/
def UPLOAD_EXPIRATION_MS : Nat := 7 * 24 * 60 * 60 * 1000

/-- Row of the `uploaded_parts` SQLite table (`UploadedPartRow`). -/
structure UploadedPartRow where
  partNumber : Nat
  etag : String
  size : Nat
deriving DecidableEq

/-- The single `upload_info` row, parsed (`UploadInfo` in the source). -/
structure UploadInfo where
  uploadId : String
  r2Key : String
  multipartUploadId : String
  totalSize : Nat
  uploadedSize : Nat
  filename : String
  contentType : String
  customMetadata : List (String × String)
  createdAt : Nat
  expiresAt : Nat
  isCompleted : Bool
  ownerId : Option String
deriving DecidableEq

/-- The persistent storage of the Durable Object: the `upload_info` row (if
any), the `uploaded_parts` table, and the scheduled cleanup alarm. -/
structure DOState where
  info : Option UploadInfo
  parts : List UploadedPartRow
  alarm : Option Nat
deriving DecidableEq

/-- The R2 object returned by `multipart.complete` (the fields the actor
reads). -/
structure R2Obj where
  key : String
  size : Nat
  checksums : String
deriving DecidableEq

/-- A row of the D1 `files` table as read back by the verification
`SELECT id, filename, size, checksum FROM files WHERE id = ?`. -/
structure FileRow where
  id : String
  filename : String
  size : Nat
  checksum : String
deriving DecidableEq

/-- Oracle fixing the outcome of each kind of external call during one
actor operation.  `none` / `false` means the call raises an I/O error.
The verification read in `writeMetadataToD1` has three outcomes in the
source, so it gets two fields: `d1VerifyThrows = true` means the SELECT
itself throws; otherwise `d1GetByIdResult` is the row it returns (or
`none` for no row). -/
structure ExtEnv where
  now : Nat
  freshUuid : String
  r2CreateResult : Option String
  r2UploadResult : Option String
  r2CompleteResult : Option R2Obj
  d1InsertOk : Bool
  d1VerifyThrows : Bool
  d1GetByIdResult : Option FileRow
deriving DecidableEq

/-- One external call made by the actor, recorded in an effect log. -/
inductive Effect where
  | r2CreateMultipart (key : String)
  | r2UploadPartCall (handle : String) (partNumber : Nat) (size : Nat)
  | r2CompleteMultipart (handle : String)
  | r2AbortMultipart (handle : String)
  | r2DeleteObject (key : String)
  | d1InsertFinalRecord (id : String)
  | d1GetById (id : String)
  | storageDeleteAll
  | setAlarm (t : Nat)
  | deleteAlarm
deriving DecidableEq

/-- Errors thrown by the actor (the `throw new Error(...)` sites). -/
inductive TusError where
  | conflict
  | notFound
  | offsetMismatch (serverOffset : Nat)
  | noParts
  | ioError
deriving DecidableEq

/-- Result of `createUpload` (`CreateUploadResult`). -/
structure CreateUploadResult where
  action : Bool -- true = created, false = resumed
  uploadId : String
  uploadedSize : Nat
  expiresAt : Nat
deriving DecidableEq

/-- Result of `uploadPart` (`UploadPartResult`). -/
structure UploadPartResult where
  uploadedSize : Nat
  isCompleted : Bool
deriving DecidableEq

/-- Result of `getUploadStatus`. -/
structure UploadStatus where
  uploadId : String
  uploadedSize : Nat
  totalSize : Nat
  expiresAt : Nat
  isCompleted : Bool
deriving DecidableEq

/-- Parameters of `createUpload`. -/
structure CreateParams where
  r2Key : String
  totalSize : Nat
  filename : String
  contentType : Option String
  customMetadata : List (String × String)
  ownerId : Option String
deriving DecidableEq

/-- Source `getUploadInfo`: reads the `upload_info` row. -/
def getUploadInfo (s : DOState) : Option UploadInfo := s.info

/-- Source `getUploadedParts`: reads `uploaded_parts` ordered by
`part_number` (insertion order coincides with that order, because the
actor only ever appends `parts.length + 1`). -/
def getUploadedParts (s : DOState) : List UploadedPartRow := s.parts

/-- Source `getUploadStatus`: projection of the `upload_info` row. -/
def getUploadStatus (s : DOState) : Option UploadStatus :=
  (getUploadInfo s).map fun i =>
    { uploadId := i.uploadId, uploadedSize := i.uploadedSize,
      totalSize := i.totalSize, expiresAt := i.expiresAt,
      isCompleted := i.isCompleted }

/-- Source `deleteUpload`: abort the multipart upload when the session is
not completed and has a handle (abort errors are swallowed), then
`storage.deleteAll()`.  `deleteAll` clears the SQLite tables; it does not
cancel the alarm. -/
def deleteUpload (s : DOState) : DOState × List Effect :=
  let abortLog : List Effect :=
    match s.info with
    | some info =>
        if info.isCompleted = false ∧ info.multipartUploadId ≠ "" then
          [Effect.r2AbortMultipart info.multipartUploadId]
        else []
    | none => []
  ({ info := none, parts := [], alarm := s.alarm },
   abortLog ++ [Effect.storageDeleteAll])

/-- Source `alarm`: on firing, if there is no upload row do nothing;
otherwise abort the multipart upload when not completed (errors
swallowed) and unconditionally `storage.deleteAll()`.  The fired alarm is
consumed. -/
def alarmFire (s : DOState) : DOState × List Effect :=
  match s.info with
  | none => ({ s with alarm := none }, [])
  | some info =>
      let abortLog : List Effect :=
        if info.isCompleted = false ∧ info.multipartUploadId ≠ "" then
          [Effect.r2AbortMultipart info.multipartUploadId]
        else []
      ({ info := none, parts := [], alarm := none },
       abortLog ++ [Effect.storageDeleteAll])

/-- The fresh-creation tail of source `createUpload`: open an R2
multipart upload, insert the `upload_info` row with `uploaded_size = 0`
and `is_completed = 0`, and arm the cleanup alarm for `expiresAt`.
On R2 failure the error propagates and no state is written. -/
def createFresh (env : ExtEnv) (p : CreateParams) (s : DOState) :
    Except TusError CreateUploadResult × DOState × List Effect :=
  match env.r2CreateResult with
  | none => (Except.error TusError.ioError, s, [Effect.r2CreateMultipart p.r2Key])
  | some handle =>
      let expiresAt := env.now + UPLOAD_EXPIRATION_MS
      let uploadId := env.freshUuid
      let info : UploadInfo :=
        { uploadId := uploadId, r2Key := p.r2Key,
          multipartUploadId := handle, totalSize := p.totalSize,
          uploadedSize := 0, filename := p.filename,
          contentType := p.contentType.getD "application/octet-stream",
          customMetadata := p.customMetadata, createdAt := env.now,
          expiresAt := expiresAt, isCompleted := false,
          ownerId := p.ownerId }
      (Except.ok { action := true, uploadId := uploadId,
                   uploadedSize := 0, expiresAt := expiresAt },
       { info := some info, parts := s.parts, alarm := some expiresAt },
       [Effect.r2CreateMultipart p.r2Key, Effect.setAlarm expiresAt])

/-- Source `createUpload`: resume when a session with the same key exists
and is not past `expiresAt`; conflict on a different key; clean up and
recreate when expired; otherwise create fresh. -/
def createUpload (env : ExtEnv) (p : CreateParams) (s : DOState) :
    Except TusError CreateUploadResult × DOState × List Effect :=
  match getUploadInfo s with
  | some existing =>
      if existing.r2Key ≠ p.r2Key then
        (Except.error TusError.conflict, s, [])
      else if env.now > existing.expiresAt then
        let d := deleteUpload s
        let c := createFresh env p d.1
        (c.1, c.2.1, d.2 ++ c.2.2)
      else
        (Except.ok { action := false, uploadId := existing.uploadId,
                     uploadedSize := existing.uploadedSize,
                     expiresAt := existing.expiresAt }, s, [])
  | none => createFresh env p s

/-- Source `writeMetadataToD1`: INSERT the final file record into the D1
`files` table (failure propagates), then read it back by id for
verification.  The verification SELECT sits inside the same try block,
so a thrown SELECT is caught at the bottom of the function, logged and
rethrown; a SELECT that succeeds but returns no row is only logged
(`console.error`) and the function still returns success — in neither
case is anything rolled back. -/
def writeMetadataToD1 (env : ExtEnv) (info : UploadInfo) :
    Except TusError Unit × List Effect :=
  if env.d1InsertOk then
    if env.d1VerifyThrows then
      -- the thrown SELECT reaches the catch, which logs and rethrows
      (Except.error TusError.ioError,
       [Effect.d1InsertFinalRecord info.uploadId,
        Effect.d1GetById info.uploadId])
    else
      match env.d1GetByIdResult with
      | some _ =>
          (Except.ok (), [Effect.d1InsertFinalRecord info.uploadId,
                          Effect.d1GetById info.uploadId])
      | none =>
          -- `[DO] D1 verification failed - record not found!` is logged,
          -- and nothing else happens: no blob delete, no revert.
          (Except.ok (), [Effect.d1InsertFinalRecord info.uploadId,
                          Effect.d1GetById info.uploadId])
  else
    (Except.error TusError.ioError, [Effect.d1InsertFinalRecord info.uploadId])

/-- Source `completeUpload`: no-op when absent or already completed;
requires at least one part; completes the R2 multipart upload; on
success sets `is_completed = 1`, writes the D1 metadata record, and
cancels the cleanup alarm.  Failures after `is_completed = 1` propagate
with that flag left set. -/
def completeUpload (env : ExtEnv) (s : DOState) :
    Except TusError Unit × DOState × List Effect :=
  match getUploadInfo s with
  | none => (Except.ok (), s, [])
  | some info =>
      if info.isCompleted then (Except.ok (), s, [])
      else if (getUploadedParts s).length = 0 then
        (Except.error TusError.noParts, s, [])
      else
        match env.r2CompleteResult with
        | none =>
            (Except.error TusError.ioError, s,
             [Effect.r2CompleteMultipart info.multipartUploadId])
        | some _r2Obj =>
            let s1 : DOState :=
              { s with info := some { info with isCompleted := true } }
            let w := writeMetadataToD1 env info
            match w.1 with
            | Except.error e =>
                (Except.error e, s1,
                 Effect.r2CompleteMultipart info.multipartUploadId :: w.2)
            | Except.ok () =>
                (Except.ok (), { s1 with alarm := none },
                 (Effect.r2CompleteMultipart info.multipartUploadId :: w.2)
                   ++ [Effect.deleteAlarm])

/-- Source `uploadPart`: not-found when no session; no-op success when
already completed; offset must equal `uploadedSize`; upload the chunk to
R2 as part `parts.length + 1`; only after R2 confirms does the actor
append the part row and advance `uploaded_size`; when the new size
reaches `totalSize`, run `completeUpload` as part of the same call. -/
def uploadPart (env : ExtEnv) (offset : Nat) (dataSize : Nat) (s : DOState) :
    Except TusError UploadPartResult × DOState × List Effect :=
  match getUploadInfo s with
  | none => (Except.error TusError.notFound, s, [])
  | some info =>
      if info.isCompleted then
        (Except.ok { uploadedSize := info.uploadedSize, isCompleted := true },
         s, [])
      else if offset ≠ info.uploadedSize then
        (Except.error (TusError.offsetMismatch info.uploadedSize), s, [])
      else
        let partNumber := (getUploadedParts s).length + 1
        match env.r2UploadResult with
        | none =>
            (Except.error TusError.ioError, s,
             [Effect.r2UploadPartCall info.multipartUploadId partNumber dataSize])
        | some etag =>
            let newUploadedSize := info.uploadedSize + dataSize
            let s1 : DOState :=
              { info := some { info with uploadedSize := newUploadedSize },
                parts := s.parts ++
                  [{ partNumber := partNumber, etag := etag, size := dataSize }],
                alarm := s.alarm }
            let upLog : List Effect :=
              [Effect.r2UploadPartCall info.multipartUploadId partNumber dataSize]
            if newUploadedSize ≥ info.totalSize then
              let c := completeUpload env s1
              match c.1 with
              | Except.error e => (Except.error e, c.2.1, upLog ++ c.2.2)
              | Except.ok () =>
                  (Except.ok { uploadedSize := newUploadedSize,
                               isCompleted := true },
                   c.2.1, upLog ++ c.2.2)
            else
              (Except.ok { uploadedSize := newUploadedSize,
                           isCompleted := false },
               s1, upLog)

/-- HTTP-level failures of the protocol adapter (`HTTPException` statuses). -/
inductive HttpFailure where
  | badRequest
  | payloadTooLarge
  | serverError
deriving DecidableEq

/-- Source `handleTusUploadCreation` from the TUS protocol adapter, after
header extraction: Zod validates `Upload-Length` as a positive integer
(missing/invalid/zero → 400), then the size is checked against
`TUS_MAX_SIZE` (→ 413), then `Upload-Metadata` must contain a filename
(→ 400); only then is a fresh uuid drawn, the r2Key derived, and the
`createUpload` actor method invoked.  A thrown actor error surfaces
as a server error. -/
def handleTusUploadCreation (env : ExtEnv) (uploadLength : Option Nat)
    (filenameMeta : Option String) (s : DOState) :
    Except HttpFailure CreateUploadResult × DOState × List Effect :=
  match uploadLength with
  | none => (Except.error HttpFailure.badRequest, s, [])
  | some len =>
      if len = 0 then (Except.error HttpFailure.badRequest, s, [])
      else if len > TUS_MAX_SIZE then
        (Except.error HttpFailure.payloadTooLarge, s, [])
      else
        match filenameMeta with
        | none => (Except.error HttpFailure.badRequest, s, [])
        | some filename =>
            let p : CreateParams :=
              { r2Key := env.freshUuid ++ "/" ++ filename,
                totalSize := len, filename := filename,
                contentType := none, customMetadata := [], ownerId := none }
            let r := createUpload env p s
            match r.1 with
            | Except.ok v => (Except.ok v, r.2.1, r.2.2)
            | Except.error _ => (Except.error HttpFailure.serverError, r.2.1, r.2.2)

/-- Test for the multipart-open effect. -/
def isCreateMultipartEff : Effect → Bool
  | Effect.r2CreateMultipart _ => true
  | _ => false

/-- Test for the multipart-abort effect. -/
def isAbortEff : Effect → Bool
  | Effect.r2AbortMultipart _ => true
  | _ => false

/-- Test for the blob-object-delete effect. -/
def isR2DeleteEff : Effect → Bool
  | Effect.r2DeleteObject _ => true
  | _ => false

/-- Test for the final-metadata-insert effect. -/
def isD1InsertEff : Effect → Bool
  | Effect.d1InsertFinalRecord _ => true
  | _ => false

/-- Number of effects in a log satisfying a test. -/
def countEff (p : Effect → Bool) (l : List Effect) : Nat :=
  (l.filter p).length

/-- Drive a session with a sequence of chunks at the prescribed offsets
`0, c1, c1+c2, …` (claimed offsets, not those of the server): each call uses
the running sum of the previous chunk sizes as its offset.  Returns the
final state and whether every call succeeded. -/
def runChunksFrom (env : ExtEnv) (off : Nat) (chunks : List Nat)
    (s : DOState) : DOState × Bool :=
  match chunks with
  | [] => (s, true)
  | c :: rest =>
      let r := uploadPart env off c s
      match r.1 with
      | Except.ok _ => runChunksFrom env (off + c) rest r.2.1
      | Except.error _ => (r.2.1, false)

/-- The part rows produced by appending the given chunk sizes to a parts
table that already holds `startNum` rows, all with the etag from the oracle. -/
def partsFor (etag : String) (startNum : Nat) : List Nat → List UploadedPartRow
  | [] => []
  | c :: rest =>
      { partNumber := startNum + 1, etag := etag, size := c } ::
        partsFor etag (startNum + 1) rest

/-- Decidable equality for `Except`, used to evaluate concrete runs. -/
instance {ε α : Type} [DecidableEq ε] [DecidableEq α] :
    DecidableEq (Except ε α) := fun x y =>
  match x, y with
  | Except.ok a, Except.ok b =>
      if h : a = b then Decidable.isTrue (by rw [h])
      else Decidable.isFalse (fun hc => h (Except.ok.inj hc))
  | Except.error e, Except.error f =>
      if h : e = f then Decidable.isTrue (by rw [h])
      else Decidable.isFalse (fun hc => h (Except.error.inj hc))
  | Except.ok _, Except.error _ => Decidable.isFalse (fun hc => Except.noConfusion hc)
  | Except.error _, Except.ok _ => Decidable.isFalse (fun hc => Except.noConfusion hc)

/-- All-success external oracle used for concrete runs. -/
def envAllOk : ExtEnv :=
  { now := 0, freshUuid := "u", r2CreateResult := some "m",
    r2UploadResult := some "e", r2CompleteResult := some ⟨"k", 0, "c"⟩,
    d1InsertOk := true, d1VerifyThrows := false,
    d1GetByIdResult := some ⟨"u", "f", 0, "c"⟩ }

/-- Oracle in which the D1 verification read succeeds but returns no row. -/
def envNoVerify : ExtEnv := { envAllOk with d1GetByIdResult := none }

/-- Oracle in which the D1 verification read itself throws. -/
def envVerifyThrows : ExtEnv := { envAllOk with d1VerifyThrows := true }

/-- Oracle in which the D1 metadata insert fails. -/
def envD1Fail : ExtEnv := { envAllOk with d1InsertOk := false }

/-- Concrete active (not completed) session row with the given declared
total and current uploaded size. -/
def infoAt (total uploaded : Nat) : UploadInfo :=
  { uploadId := "u", r2Key := "k", multipartUploadId := "m",
    totalSize := total, uploadedSize := uploaded, filename := "f",
    contentType := "t", customMetadata := [], createdAt := 0,
    expiresAt := 100, isCompleted := false, ownerId := none }

/-- C3: on an existing, non-completed session, `uploadPart` with any
offset different from the current `uploadedSize` fails with
`OffsetMismatch` carrying the server offset, leaves the whole state
(in particular `uploadedSize` and the parts list) unchanged, and makes
no external call. -/
theorem c3_offset_rejection (env : ExtEnv) (i : UploadInfo)
    (ps : List UploadedPartRow) (al : Option Nat) (offset dataSize : Nat)
    (hC : i.isCompleted = false) (hOff : offset ≠ i.uploadedSize) :
    uploadPart env offset dataSize ⟨some i, ps, al⟩ =
      (Except.error (TusError.offsetMismatch i.uploadedSize),
       ⟨some i, ps, al⟩, []) := by
  simp [uploadPart, getUploadInfo, hC, hOff]

/-- Witness for `c3_offset_rejection` at offset 5 against server offset 0. -/
theorem c3_offset_rejection_witness :
    uploadPart envAllOk 5 1 ⟨some (infoAt 10 0), [], none⟩ =
      (Except.error (TusError.offsetMismatch 0),
       ⟨some (infoAt 10 0), [], none⟩, []) :=
  c3_offset_rejection envAllOk (infoAt 10 0) [] none 5 1 rfl (by decide)

/-- C10: in the actor the completed check precedes the offset check: on a
completed session `uploadPart` returns a no-op success with the current
`uploadedSize` for every offset argument (state unchanged, no external
call), so `OffsetMismatch` is never raised on a completed session. -/
theorem c10_completed_check_first (env : ExtEnv) (i : UploadInfo)
    (ps : List UploadedPartRow) (al : Option Nat) (offset dataSize : Nat)
    (hC : i.isCompleted = true) :
    uploadPart env offset dataSize ⟨some i, ps, al⟩ =
      (Except.ok { uploadedSize := i.uploadedSize, isCompleted := true },
       ⟨some i, ps, al⟩, []) := by
  simp [uploadPart, getUploadInfo, hC]

/-- Witness for `c10_completed_check_first`: a mismatching offset (7 vs
server offset 3) still gets the no-op success on a completed session. -/
theorem c10_completed_check_first_witness :
    uploadPart envAllOk 7 1 ⟨some { infoAt 3 3 with isCompleted := true },
        [⟨1, "e", 3⟩], none⟩ =
      (Except.ok { uploadedSize := 3, isCompleted := true },
       ⟨some { infoAt 3 3 with isCompleted := true }, [⟨1, "e", 3⟩], none⟩, []) :=
  c10_completed_check_first envAllOk { infoAt 3 3 with isCompleted := true }
    [⟨1, "e", 3⟩] none 7 1 rfl

/-- C8: a declared length over the configured maximum is rejected with
the too-large response before any multipart upload is opened and before
any session state is persisted: the effect log is empty and the state is
returned unchanged. -/
theorem c8_too_large (env : ExtEnv) (len : Nat) (meta : Option String)
    (s : DOState) (h : len > TUS_MAX_SIZE) :
    handleTusUploadCreation env (some len) meta s =
      (Except.error HttpFailure.payloadTooLarge, s, []) := by
  have h0 : len ≠ 0 := by
    have : 0 < len := lt_of_le_of_lt (Nat.zero_le _) h
    omega
  simp [handleTusUploadCreation, h0, h]

/-- Witness for `c8_too_large` at one byte over the 5GB maximum. -/
theorem c8_too_large_witness :
    handleTusUploadCreation envAllOk (some (TUS_MAX_SIZE + 1)) (some "f")
        ⟨none, [], none⟩ =
      (Except.error HttpFailure.payloadTooLarge, ⟨none, [], none⟩, []) :=
  c8_too_large envAllOk (TUS_MAX_SIZE + 1) (some "f") ⟨none, [], none⟩
    (by decide)

/-- Helper: the completion sequence never changes `uploadedSize` or the
parts table, whatever the oracle answers. -/
theorem completeUpload_preserves (env : ExtEnv) (s : DOState) :
    ((completeUpload env s).2.1.info.map (fun i => i.uploadedSize)) =
      (s.info.map (fun i => i.uploadedSize)) ∧
    (completeUpload env s).2.1.parts = s.parts := by
  obtain ⟨info, parts, al⟩ := s
  cases info with
  | none => simp [completeUpload, getUploadInfo]
  | some i =>
      simp only [completeUpload, getUploadInfo, getUploadedParts, writeMetadataToD1]
      repeat' split
      all_goals simp_all

/-- C6: after a successful fresh `createOrResume`, a second call with the
same `storageKey` before `expiresAt` returns `resumed` with the same
`uploadId` and the current `uploadedSize`, leaves the session state
unchanged, performs no external call, and across both calls the
blob-store multipart upload is opened exactly once. -/
theorem c6_idempotent_resume (env1 env2 : ExtEnv) (p : CreateParams)
    (handle : String) (al : Option Nat)
    (h1 : env1.r2CreateResult = some handle)
    (h2 : env2.now ≤ env1.now + UPLOAD_EXPIRATION_MS) :
    (createUpload env1 p ⟨none, [], al⟩).1 =
      Except.ok { action := true, uploadId := env1.freshUuid,
                  uploadedSize := 0,
                  expiresAt := env1.now + UPLOAD_EXPIRATION_MS } ∧
    createUpload env2 p (createUpload env1 p ⟨none, [], al⟩).2.1 =
      (Except.ok { action := false, uploadId := env1.freshUuid,
                   uploadedSize := 0,
                   expiresAt := env1.now + UPLOAD_EXPIRATION_MS },
       (createUpload env1 p ⟨none, [], al⟩).2.1, []) ∧
    countEff isCreateMultipartEff
      ((createUpload env1 p ⟨none, [], al⟩).2.2 ++
        (createUpload env2 p (createUpload env1 p ⟨none, [], al⟩).2.1).2.2) = 1 := by
  have hnot : ¬ env2.now > env1.now + UPLOAD_EXPIRATION_MS := by omega
  simp [createUpload, createFresh, getUploadInfo, h1, hnot, countEff,
    isCreateMultipartEff]

/-- Witness for `c6_idempotent_resume` with both calls at time 0. -/
theorem c6_idempotent_resume_witness :
    (createUpload envAllOk
        { r2Key := "k", totalSize := 10, filename := "f", contentType := none,
          customMetadata := [], ownerId := none } ⟨none, [], none⟩).1 =
      Except.ok { action := true, uploadId := envAllOk.freshUuid,
                  uploadedSize := 0,
                  expiresAt := envAllOk.now + UPLOAD_EXPIRATION_MS } ∧
    createUpload envAllOk
        { r2Key := "k", totalSize := 10, filename := "f", contentType := none,
          customMetadata := [], ownerId := none }
        (createUpload envAllOk
          { r2Key := "k", totalSize := 10, filename := "f", contentType := none,
            customMetadata := [], ownerId := none } ⟨none, [], none⟩).2.1 =
      (Except.ok { action := false, uploadId := envAllOk.freshUuid,
                   uploadedSize := 0,
                   expiresAt := envAllOk.now + UPLOAD_EXPIRATION_MS },
       (createUpload envAllOk
          { r2Key := "k", totalSize := 10, filename := "f", contentType := none,
            customMetadata := [], ownerId := none } ⟨none, [], none⟩).2.1, []) ∧
    countEff isCreateMultipartEff
      ((createUpload envAllOk
          { r2Key := "k", totalSize := 10, filename := "f", contentType := none,
            customMetadata := [], ownerId := none } ⟨none, [], none⟩).2.2 ++
        (createUpload envAllOk
          { r2Key := "k", totalSize := 10, filename := "f", contentType := none,
            customMetadata := [], ownerId := none }
          (createUpload envAllOk
            { r2Key := "k", totalSize := 10, filename := "f", contentType := none,
              customMetadata := [], ownerId := none } ⟨none, [], none⟩).2.1).2.2) = 1 :=
  c6_idempotent_resume envAllOk envAllOk
    { r2Key := "k", totalSize := 10, filename := "f", contentType := none,
      customMetadata := [], ownerId := none } "m" none rfl (by decide)

/-- C2 fails as stated: the actor never checks that a chunk does not
overshoot the declared total.  On a session with `totalSize = 10` and
`uploadedSize = 0`, a 20-byte chunk at offset 0 is accepted, the call
succeeds, and afterwards `uploadedSize = 20 > totalSize`. -/
theorem c2_counterexample :
    (uploadPart envAllOk 0 20 ⟨some (infoAt 10 0), [], none⟩).1 =
      Except.ok { uploadedSize := 20, isCompleted := true } ∧
    ((uploadPart envAllOk 0 20 ⟨some (infoAt 10 0), [], none⟩).2.1.info.map
        (fun i => i.uploadedSize)) = some 20 ∧
    ¬ (20 ≤ (infoAt 10 0).totalSize) := by decide

/-- C2 amended: `uploadedSize ≤ totalSize` is preserved only for chunks
that do not overshoot: if an accepted chunk satisfies
`uploadedSize + chunkSize ≤ totalSize`, the resulting `uploadedSize`
equals `uploadedSize + chunkSize` and does not exceed `totalSize`;
the code itself never rejects an overshooting chunk. -/
theorem c2_amended_no_overshoot (env : ExtEnv) (etag : String)
    (i : UploadInfo) (ps : List UploadedPartRow) (al : Option Nat) (c : Nat)
    (hC : i.isCompleted = false)
    (hUp : env.r2UploadResult = some etag)
    (hFit : i.uploadedSize + c ≤ i.totalSize) :
    ∃ i', (uploadPart env i.uploadedSize c ⟨some i, ps, al⟩).2.1.info = some i' ∧
      i'.uploadedSize = i.uploadedSize + c ∧ i'.uploadedSize ≤ i.totalSize := by
  simp only [uploadPart, getUploadInfo, getUploadedParts, hC, hUp,
    Bool.false_eq_true, if_false, ne_eq, not_true_eq_false, ite_false]
  split
  · split
    all_goals (
      have hpres := (completeUpload_preserves env
        ⟨some { i with uploadedSize := i.uploadedSize + c, isCompleted := false },
         ps ++ [⟨ps.length + 1, etag, c⟩], al⟩).1
      rcases Option.map_eq_some'.mp hpres with ⟨i', hi', hsz⟩
      have hsz' : i'.uploadedSize = i.uploadedSize + c := by simpa using hsz
      exact ⟨i', hi', hsz', hsz'.trans_le hFit⟩)
  · exact ⟨_, rfl, rfl, hFit⟩

/-- Witness for `c2_amended_no_overshoot`: a 10-byte chunk exactly
filling a 10-byte declared total. -/
theorem c2_amended_no_overshoot_witness :
    ∃ i', (uploadPart envAllOk ((infoAt 10 0).uploadedSize) 10
        ⟨some (infoAt 10 0), [], none⟩).2.1.info = some i' ∧
      i'.uploadedSize = (infoAt 10 0).uploadedSize + 10 ∧
      i'.uploadedSize ≤ (infoAt 10 0).totalSize :=
  c2_amended_no_overshoot envAllOk "e" (infoAt 10 0) [] none 10 rfl rfl
    (by decide)

/-- C1 fails as stated: when the verification read after the metadata
insert returns no row, the code only logs the failure.  Concretely, on a
3-byte session whose final chunk completes with `getById` returning
absent, the call still returns success, the session reports
`completed = true` afterwards (the claim requires `false`), and no
blob-object delete is issued (the claim requires the blob deleted). -/
theorem c1_counterexample :
    (uploadPart envNoVerify 0 3 ⟨some (infoAt 3 0), [], none⟩).1 =
      Except.ok { uploadedSize := 3, isCompleted := true } ∧
    ((uploadPart envNoVerify 0 3 ⟨some (infoAt 3 0), [], none⟩).2.1.info.map
      (fun i => i.isCompleted)) = some true ∧
    countEff isR2DeleteEff
      (uploadPart envNoVerify 0 3 ⟨some (infoAt 3 0), [], none⟩).2.2 = 0 := by
  decide

/-- C1 amended: the verification read-back after `insertFinalRecord`
never triggers a rollback.  If the read succeeds but returns no row, the
code merely logs, the call still returns success, the session reports
`completed = true` afterwards, and no blob-object delete is issued.  If
the read itself fails (throws), the error does propagate to the caller
as a server error, but there is still no compensating action: the
session likewise reports `completed = true` and no blob-object delete
is issued. -/
theorem c1_amended_no_rollback :
    (∀ (env : ExtEnv) (etag : String) (r2o : R2Obj) (i : UploadInfo)
        (ps : List UploadedPartRow) (al : Option Nat) (c : Nat),
      i.isCompleted = false →
      env.r2UploadResult = some etag →
      env.r2CompleteResult = some r2o →
      env.d1InsertOk = true →
      env.d1VerifyThrows = false →
      env.d1GetByIdResult = none →
      i.totalSize ≤ i.uploadedSize + c →
      (uploadPart env i.uploadedSize c ⟨some i, ps, al⟩).1 =
        Except.ok { uploadedSize := i.uploadedSize + c, isCompleted := true } ∧
      (uploadPart env i.uploadedSize c ⟨some i, ps, al⟩).2.1.info =
        some { i with
          uploadedSize := i.uploadedSize + c, isCompleted := true } ∧
      countEff isR2DeleteEff
        (uploadPart env i.uploadedSize c ⟨some i, ps, al⟩).2.2 = 0) ∧
    (∀ (env : ExtEnv) (etag : String) (r2o : R2Obj) (i : UploadInfo)
        (ps : List UploadedPartRow) (al : Option Nat) (c : Nat),
      i.isCompleted = false →
      env.r2UploadResult = some etag →
      env.r2CompleteResult = some r2o →
      env.d1InsertOk = true →
      env.d1VerifyThrows = true →
      i.totalSize ≤ i.uploadedSize + c →
      (uploadPart env i.uploadedSize c ⟨some i, ps, al⟩).1 =
        Except.error TusError.ioError ∧
      (uploadPart env i.uploadedSize c ⟨some i, ps, al⟩).2.1.info =
        some { i with
          uploadedSize := i.uploadedSize + c, isCompleted := true } ∧
      countEff isR2DeleteEff
        (uploadPart env i.uploadedSize c ⟨some i, ps, al⟩).2.2 = 0) := by
  constructor
  · intro env etag r2o i ps al c hC hUp hComp hIns hVer hRow hDone
    simp [uploadPart, completeUpload, writeMetadataToD1, getUploadInfo,
      getUploadedParts, hC, hUp, hComp, hIns, hVer, hRow, hDone, countEff,
      isR2DeleteEff]
  · intro env etag r2o i ps al c hC hUp hComp hIns hVer hDone
    simp [uploadPart, completeUpload, writeMetadataToD1, getUploadInfo,
      getUploadedParts, hC, hUp, hComp, hIns, hVer, hDone, countEff,
      isR2DeleteEff]

/-- Witness for `c1_amended_no_rollback` on a 3-byte session: once with
the verification read returning no row, once with it throwing. -/
theorem c1_amended_no_rollback_witness :
    ((uploadPart envNoVerify ((infoAt 3 0).uploadedSize) 3
        ⟨some (infoAt 3 0), [], none⟩).1 =
      Except.ok { uploadedSize := (infoAt 3 0).uploadedSize + 3,
                  isCompleted := true } ∧
    (uploadPart envNoVerify ((infoAt 3 0).uploadedSize) 3
        ⟨some (infoAt 3 0), [], none⟩).2.1.info =
      some { infoAt 3 0 with
        uploadedSize := (infoAt 3 0).uploadedSize + 3, isCompleted := true } ∧
    countEff isR2DeleteEff
      (uploadPart envNoVerify ((infoAt 3 0).uploadedSize) 3
        ⟨some (infoAt 3 0), [], none⟩).2.2 = 0) ∧
    ((uploadPart envVerifyThrows ((infoAt 3 0).uploadedSize) 3
        ⟨some (infoAt 3 0), [], none⟩).1 = Except.error TusError.ioError ∧
    (uploadPart envVerifyThrows ((infoAt 3 0).uploadedSize) 3
        ⟨some (infoAt 3 0), [], none⟩).2.1.info =
      some { infoAt 3 0 with
        uploadedSize := (infoAt 3 0).uploadedSize + 3, isCompleted := true } ∧
    countEff isR2DeleteEff
      (uploadPart envVerifyThrows ((infoAt 3 0).uploadedSize) 3
        ⟨some (infoAt 3 0), [], none⟩).2.2 = 0) :=
  ⟨c1_amended_no_rollback.1 envNoVerify "e" ⟨"k", 0, "c"⟩ (infoAt 3 0) []
      none 3 rfl rfl rfl rfl rfl rfl (by decide),
   c1_amended_no_rollback.2 envVerifyThrows "e" ⟨"k", 0, "c"⟩ (infoAt 3 0) []
      none 3 rfl rfl rfl rfl rfl (by decide)⟩

/-- C5: reaching the declared total triggers exactly one
`insertFinalRecord` write — one D1 insert effect in the completing call
whatever the verification read does; the call reports success when the
verification read does not throw, and a server error when it throws —
and every `uploadPart` call on a completed session is a no-op success
returning the current state, appending no part and making no further
external call (so it never writes the metadata record again). -/
theorem c5_single_metadata_write :
    (∀ (env : ExtEnv) (etag : String) (r2o : R2Obj) (i : UploadInfo)
        (ps : List UploadedPartRow) (al : Option Nat) (c : Nat),
      i.isCompleted = false →
      env.r2UploadResult = some etag →
      env.r2CompleteResult = some r2o →
      env.d1InsertOk = true →
      i.totalSize ≤ i.uploadedSize + c →
      countEff isD1InsertEff
        (uploadPart env i.uploadedSize c ⟨some i, ps, al⟩).2.2 = 1 ∧
      (env.d1VerifyThrows = false →
        (uploadPart env i.uploadedSize c ⟨some i, ps, al⟩).1 =
          Except.ok { uploadedSize := i.uploadedSize + c,
                      isCompleted := true }) ∧
      (env.d1VerifyThrows = true →
        (uploadPart env i.uploadedSize c ⟨some i, ps, al⟩).1 =
          Except.error TusError.ioError)) ∧
    (∀ (env : ExtEnv) (i : UploadInfo) (ps : List UploadedPartRow)
        (al : Option Nat) (offset c : Nat),
      i.isCompleted = true →
      uploadPart env offset c ⟨some i, ps, al⟩ =
        (Except.ok { uploadedSize := i.uploadedSize, isCompleted := true },
         ⟨some i, ps, al⟩, [])) := by
  constructor
  · intro env etag r2o i ps al c hC hUp hComp hIns hDone
    refine ⟨?_, ?_, ?_⟩
    · cases hvt : env.d1VerifyThrows <;> cases hv : env.d1GetByIdResult <;>
        simp [uploadPart, completeUpload, writeMetadataToD1, getUploadInfo,
          getUploadedParts, hC, hUp, hComp, hIns, hvt, hv, hDone, countEff,
          isD1InsertEff]
    · intro hvt
      cases hv : env.d1GetByIdResult <;>
        simp [uploadPart, completeUpload, writeMetadataToD1, getUploadInfo,
          getUploadedParts, hC, hUp, hComp, hIns, hvt, hv, hDone]
    · intro hvt
      simp [uploadPart, completeUpload, writeMetadataToD1, getUploadInfo,
        getUploadedParts, hC, hUp, hComp, hIns, hvt, hDone]
  · intro env i ps al offset c hC
    simp [uploadPart, getUploadInfo, hC]

/-- Witness for `c5_single_metadata_write`: the completing chunk of a
3-byte session makes exactly one metadata insert and succeeds, and a
repeated call on the (now completed) session is a pure no-op. -/
theorem c5_single_metadata_write_witness :
    (countEff isD1InsertEff
        (uploadPart envAllOk ((infoAt 3 0).uploadedSize) 3
          ⟨some (infoAt 3 0), [], none⟩).2.2 = 1 ∧
      (envAllOk.d1VerifyThrows = false →
        (uploadPart envAllOk ((infoAt 3 0).uploadedSize) 3
            ⟨some (infoAt 3 0), [], none⟩).1 =
          Except.ok { uploadedSize := (infoAt 3 0).uploadedSize + 3,
                      isCompleted := true }) ∧
      (envAllOk.d1VerifyThrows = true →
        (uploadPart envAllOk ((infoAt 3 0).uploadedSize) 3
            ⟨some (infoAt 3 0), [], none⟩).1 =
          Except.error TusError.ioError)) ∧
    uploadPart envAllOk 3 3
        ⟨some { infoAt 3 3 with isCompleted := true }, [⟨1, "e", 3⟩], none⟩ =
      (Except.ok { uploadedSize := 3, isCompleted := true },
       ⟨some { infoAt 3 3 with isCompleted := true }, [⟨1, "e", 3⟩], none⟩, []) :=
  ⟨c5_single_metadata_write.1 envAllOk "e" ⟨"k", 0, "c"⟩ (infoAt 3 0) [] none 3
      rfl rfl rfl rfl (by decide),
   c5_single_metadata_write.2 envAllOk { infoAt 3 3 with isCompleted := true }
      [⟨1, "e", 3⟩] none 3 3 rfl⟩

/-- C7 fails as stated: a metadata-store failure during the completion
sequence does not leave the session as it was.  On a 3-byte session
whose final chunk triggers completion with the D1 insert failing, the
call errors but the part list is no longer empty and the completed flag
has been set to true. -/
theorem c7_counterexample :
    (uploadPart envD1Fail 0 3 ⟨some (infoAt 3 0), [], none⟩).1 =
      Except.error TusError.ioError ∧
    (uploadPart envD1Fail 0 3 ⟨some (infoAt 3 0), [], none⟩).2.1.parts ≠ [] ∧
    ((uploadPart envD1Fail 0 3 ⟨some (infoAt 3 0), [], none⟩).2.1.info.map
      (fun i => i.isCompleted)) = some true := by
  decide

/-- C7 amended: blob-store failure during `createOrResume` or during the
part-upload step of `uploadPart` is surfaced as an error with session
state exactly unchanged; but when the final chunk triggers the
completion sequence, a blob-complete failure leaves the just-appended
part and the advanced `uploadedSize` in place (completed still false),
and a metadata-store failure additionally leaves `completed = true`. -/
theorem c7_amended_failure_atomicity :
    (∀ (env : ExtEnv) (p : CreateParams) (ps : List UploadedPartRow)
        (al : Option Nat),
      env.r2CreateResult = none →
      createUpload env p ⟨none, ps, al⟩ =
        (Except.error TusError.ioError, ⟨none, ps, al⟩,
         [Effect.r2CreateMultipart p.r2Key])) ∧
    (∀ (env : ExtEnv) (i : UploadInfo) (ps : List UploadedPartRow)
        (al : Option Nat) (c : Nat),
      i.isCompleted = false →
      env.r2UploadResult = none →
      uploadPart env i.uploadedSize c ⟨some i, ps, al⟩ =
        (Except.error TusError.ioError, ⟨some i, ps, al⟩,
         [Effect.r2UploadPartCall i.multipartUploadId (ps.length + 1) c])) ∧
    (∀ (env : ExtEnv) (etag : String) (i : UploadInfo)
        (ps : List UploadedPartRow) (al : Option Nat) (c : Nat),
      i.isCompleted = false →
      env.r2UploadResult = some etag →
      env.r2CompleteResult = none →
      i.totalSize ≤ i.uploadedSize + c →
      (uploadPart env i.uploadedSize c ⟨some i, ps, al⟩).1 =
        Except.error TusError.ioError ∧
      (uploadPart env i.uploadedSize c ⟨some i, ps, al⟩).2.1 =
        ⟨some { i with uploadedSize := i.uploadedSize + c },
         ps ++ [⟨ps.length + 1, etag, c⟩], al⟩) ∧
    (∀ (env : ExtEnv) (etag : String) (r2o : R2Obj) (i : UploadInfo)
        (ps : List UploadedPartRow) (al : Option Nat) (c : Nat),
      i.isCompleted = false →
      env.r2UploadResult = some etag →
      env.r2CompleteResult = some r2o →
      env.d1InsertOk = false →
      i.totalSize ≤ i.uploadedSize + c →
      (uploadPart env i.uploadedSize c ⟨some i, ps, al⟩).1 =
        Except.error TusError.ioError ∧
      (uploadPart env i.uploadedSize c ⟨some i, ps, al⟩).2.1 =
        ⟨some { i with uploadedSize := i.uploadedSize + c, isCompleted := true },
         ps ++ [⟨ps.length + 1, etag, c⟩], al⟩) := by
  refine ⟨?_, ?_, ?_, ?_⟩
  · intro env p ps al h
    simp [createUpload, createFresh, getUploadInfo, h]
  · intro env i ps al c hC hUp
    simp [uploadPart, getUploadInfo, getUploadedParts, hC, hUp]
  · intro env etag i ps al c hC hUp hComp hDone
    simp [uploadPart, completeUpload, getUploadInfo, getUploadedParts,
      hC, hUp, hComp, hDone]
  · intro env etag r2o i ps al c hC hUp hComp hIns hDone
    simp [uploadPart, completeUpload, writeMetadataToD1, getUploadInfo,
      getUploadedParts, hC, hUp, hComp, hIns, hDone]

/-- Witness for `c7_amended_failure_atomicity`: the part-upload failure
case on a fresh 10-byte session leaves the state untouched. -/
theorem c7_amended_failure_atomicity_witness :
    uploadPart { envAllOk with r2UploadResult := none }
        ((infoAt 10 0).uploadedSize) 4 ⟨some (infoAt 10 0), [], none⟩ =
      (Except.error TusError.ioError, ⟨some (infoAt 10 0), [], none⟩,
       [Effect.r2UploadPartCall (infoAt 10 0).multipartUploadId 1 4]) :=
  c7_amended_failure_atomicity.2.1 { envAllOk with r2UploadResult := none }
    (infoAt 10 0) [] none 4 rfl rfl

/-- C9 fails as stated: when the alarm fires on an already-completed
session, the code does clear all storage (it only skips the multipart
abort), so state is touched: `getStatus` afterwards is `NotFound`. -/
theorem c9_counterexample :
    (alarmFire ⟨some { infoAt 3 3 with isCompleted := true },
        [⟨1, "e", 3⟩], none⟩).1.info = none ∧
    getUploadStatus (alarmFire ⟨some { infoAt 3 3 with isCompleted := true },
        [⟨1, "e", 3⟩], none⟩).1 = none ∧
    countEff isAbortEff (alarmFire ⟨some { infoAt 3 3 with isCompleted := true },
        [⟨1, "e", 3⟩], none⟩).2 = 0 ∧
    (⟨some { infoAt 3 3 with isCompleted := true }, [⟨1, "e", 3⟩], none⟩ :
        DOState).info ≠ none := by
  decide

/-- C9 amended: when the timer fires on a session that is still Active
(not completed, with a multipart handle), the multipart upload is
aborted exactly once and all session state is cleared, so `getStatus`
afterwards returns `NotFound`; when the session was already completed,
the multipart upload is not aborted but all session state is still
cleared (so `getStatus` also returns `NotFound`). -/
theorem c9_amended_cleanup (i : UploadInfo) (ps : List UploadedPartRow)
    (al : Option Nat) :
    getUploadStatus (alarmFire ⟨some i, ps, al⟩).1 = none ∧
    (alarmFire ⟨some i, ps, al⟩).1.info = none ∧
    (alarmFire ⟨some i, ps, al⟩).1.parts = [] ∧
    (i.isCompleted = false → i.multipartUploadId ≠ "" →
      countEff isAbortEff (alarmFire ⟨some i, ps, al⟩).2 = 1) ∧
    (i.isCompleted = true →
      countEff isAbortEff (alarmFire ⟨some i, ps, al⟩).2 = 0) := by
  refine ⟨?_, ?_, ?_, ?_, ?_⟩
  · simp [alarmFire, getUploadStatus, getUploadInfo]
  · simp [alarmFire]
  · simp [alarmFire]
  · intro h1 h2
    simp [alarmFire, countEff, isAbortEff, h1, h2]
  · intro h1
    simp [alarmFire, countEff, isAbortEff, h1]

/-- Witness for `c9_amended_cleanup`: an Active 3-byte session is
cleared with exactly one abort. -/
theorem c9_amended_cleanup_witness :
    getUploadStatus (alarmFire ⟨some (infoAt 3 0), [], some 100⟩).1 = none ∧
    countEff isAbortEff (alarmFire ⟨some (infoAt 3 0), [], some 100⟩).2 = 1 :=
  ⟨(c9_amended_cleanup (infoAt 3 0) [] (some 100)).1,
   (c9_amended_cleanup (infoAt 3 0) [] (some 100)).2.2.2.1 rfl (by decide)⟩

/-- Helper: the part numbers produced by a run of appends form the
contiguous range starting right after the existing rows. -/
theorem partsFor_map_partNumber (etag : String) :
    ∀ (chunks : List Nat) (k : Nat),
      (partsFor etag k chunks).map (fun p => p.partNumber) =
        List.range' (k + 1) chunks.length := by
  intro chunks
  induction chunks with
  | nil => intro k; simp [partsFor]
  | cons c rest ih =>
      intro k
      simp [partsFor, List.range'_succ, ih (k + 1), Nat.add_assoc,
        Nat.add_comm 1 1]

/-- Helper: the sizes recorded by a run of appends are the chunk sizes. -/
theorem partsFor_map_size (etag : String) :
    ∀ (chunks : List Nat) (k : Nat),
      (partsFor etag k chunks).map (fun p => p.size) = chunks := by
  intro chunks
  induction chunks with
  | nil => intro k; simp [partsFor]
  | cons c rest ih => intro k; simp [partsFor, ih (k + 1)]

/-- Helper: a matching-offset chunk that stays strictly below the
declared total is accepted without triggering completion. -/
theorem uploadPart_step (env : ExtEnv) (etag : String) (i : UploadInfo)
    (ps : List UploadedPartRow) (al : Option Nat) (c : Nat)
    (hC : i.isCompleted = false) (hUp : env.r2UploadResult = some etag)
    (hlt : i.uploadedSize + c < i.totalSize) :
    uploadPart env i.uploadedSize c ⟨some i, ps, al⟩ =
      (Except.ok { uploadedSize := i.uploadedSize + c, isCompleted := false },
       ⟨some { i with uploadedSize := i.uploadedSize + c },
        ps ++ [⟨ps.length + 1, etag, c⟩], al⟩,
       [Effect.r2UploadPartCall i.multipartUploadId (ps.length + 1) c]) := by
  have hnot : ¬ (i.totalSize ≤ i.uploadedSize + c) := by omega
  simp [uploadPart, getUploadInfo, getUploadedParts, hC, hUp, hnot]

/-- Helper: a matching-offset chunk that reaches the declared total runs
the completion sequence; with all stores succeeding, the session ends
completed with the part appended and the alarm cancelled. -/
theorem uploadPart_final (env : ExtEnv) (etag : String) (r2o : R2Obj)
    (i : UploadInfo) (ps : List UploadedPartRow) (al : Option Nat) (c : Nat)
    (hC : i.isCompleted = false) (hUp : env.r2UploadResult = some etag)
    (hComp : env.r2CompleteResult = some r2o) (hIns : env.d1InsertOk = true)
    (hVer : env.d1VerifyThrows = false)
    (hge : i.totalSize ≤ i.uploadedSize + c) :
    uploadPart env i.uploadedSize c ⟨some i, ps, al⟩ =
      (Except.ok { uploadedSize := i.uploadedSize + c, isCompleted := true },
       ⟨some { i with uploadedSize := i.uploadedSize + c, isCompleted := true },
        ps ++ [⟨ps.length + 1, etag, c⟩], none⟩,
       [Effect.r2UploadPartCall i.multipartUploadId (ps.length + 1) c,
        Effect.r2CompleteMultipart i.multipartUploadId,
        Effect.d1InsertFinalRecord i.uploadId,
        Effect.d1GetById i.uploadId,
        Effect.deleteAlarm]) := by
  cases hv : env.d1GetByIdResult <;>
    simp [uploadPart, completeUpload, writeMetadataToD1, getUploadInfo,
      getUploadedParts, hC, hUp, hComp, hIns, hVer, hv, hge]

/-- Helper: a run of chunks at the prescribed offsets on an active
session, with an all-success oracle, succeeds entirely and appends
exactly the expected part rows, provided completion is not reached
before the last chunk. -/
theorem runChunksFrom_ok (env : ExtEnv) (etag : String) (r2o : R2Obj)
    (hUp : env.r2UploadResult = some etag)
    (hComp : env.r2CompleteResult = some r2o)
    (hIns : env.d1InsertOk = true)
    (hVer : env.d1VerifyThrows = false) :
    ∀ (chunks : List Nat) (i : UploadInfo) (ps : List UploadedPartRow)
      (al : Option Nat),
      i.isCompleted = false →
      (∀ k, k < chunks.length →
        i.uploadedSize + (chunks.take k).sum < i.totalSize) →
      (runChunksFrom env i.uploadedSize chunks ⟨some i, ps, al⟩).2 = true ∧
      (∃ i', (runChunksFrom env i.uploadedSize chunks
          ⟨some i, ps, al⟩).1.info = some i' ∧
        i'.uploadedSize = i.uploadedSize + chunks.sum) ∧
      (runChunksFrom env i.uploadedSize chunks ⟨some i, ps, al⟩).1.parts =
        ps ++ partsFor etag ps.length chunks := by
  intro chunks
  induction chunks with
  | nil =>
      intro i ps al hC hpre
      exact ⟨rfl, ⟨i, rfl, by simp⟩, by simp [runChunksFrom, partsFor]⟩
  | cons c rest ih =>
      intro i ps al hC hpre
      cases rest with
      | nil =>
          by_cases hge : i.totalSize ≤ i.uploadedSize + c
          · have hfull := uploadPart_final env etag r2o i ps al c hC hUp
              hComp hIns hVer hge
            simp only [runChunksFrom, hfull]
            refine ⟨by simp, ⟨_, rfl, by simp⟩, by simp [partsFor]⟩
          · have hlt : i.uploadedSize + c < i.totalSize := by omega
            have hstep := uploadPart_step env etag i ps al c hC hUp hlt
            simp only [runChunksFrom, hstep]
            refine ⟨by simp, ⟨_, rfl, by simp⟩, by simp [partsFor]⟩
      | cons r rs =>
          have hlt : i.uploadedSize + c < i.totalSize := by
            have h1 := hpre 1 (by simp)
            simpa using h1
          have hstep := uploadPart_step env etag i ps al c hC hUp hlt
          simp only [runChunksFrom, hstep]
          have hC1 : ({ i with uploadedSize := i.uploadedSize + c } :
              UploadInfo).isCompleted = false := by simpa using hC
          have hpre1 : ∀ k, k < (r :: rs).length →
              ({ i with uploadedSize := i.uploadedSize + c} :
                UploadInfo).uploadedSize + ((r :: rs).take k).sum <
              ({ i with uploadedSize := i.uploadedSize + c} :
                UploadInfo).totalSize := by
            intro k hk
            have h2 := hpre (k + 1) (by simpa using Nat.succ_lt_succ hk)
            simpa [Nat.add_assoc] using h2
          have hrec := ih { i with uploadedSize := i.uploadedSize + c }
            (ps ++ [⟨ps.length + 1, etag, c⟩]) al hC1 hpre1
          refine ⟨hrec.1, ?_, ?_⟩
          · rcases hrec.2.1 with ⟨i', hi', hsz⟩
            exact ⟨i', hi', by simpa [Nat.add_assoc] using hsz⟩
          · exact hrec.2.2.trans (by simp [partsFor])

/-- C4 fails as stated: on a fresh session with `totalSize = 5`, the
sequence of chunks `[5, 3]` at the prescribed offsets `0, 5` consists
entirely of successful calls (the second is the completed-session
no-op), yet the final `uploadedSize` is 5, not the chunk sum 8, and only
one part was recorded. -/
theorem c4_counterexample :
    (runChunksFrom envAllOk 0 [5, 3] ⟨some (infoAt 5 0), [], none⟩).2 = true ∧
    ((runChunksFrom envAllOk 0 [5, 3]
        ⟨some (infoAt 5 0), [], none⟩).1.info.map
      (fun i => i.uploadedSize)) = some 5 ∧
    ([5, 3].sum ≠ 5) ∧
    (runChunksFrom envAllOk 0 [5, 3]
        ⟨some (infoAt 5 0), [], none⟩).1.parts.length = 1 := by
  decide

/-- C4 amended: for any sequence of chunks at the prescribed offsets
`0, c1, c1+c2, …` on a fresh session, with the blob and metadata stores
succeeding, and provided the session does not reach completion before
the final chunk (every proper-prefix sum stays below `totalSize`), all
calls succeed, the final `uploadedSize` equals the sum of the chunk
sizes, the recorded part numbers are exactly the contiguous range
`1..N`, and `uploadedSize` equals the sum of the recorded part sizes. -/
theorem c4_amended_order_invariant (env : ExtEnv) (etag : String)
    (r2o : R2Obj) (i : UploadInfo) (al : Option Nat) (chunks : List Nat)
    (hUp : env.r2UploadResult = some etag)
    (hComp : env.r2CompleteResult = some r2o)
    (hIns : env.d1InsertOk = true)
    (hVer : env.d1VerifyThrows = false)
    (hFresh : i.uploadedSize = 0)
    (hC : i.isCompleted = false)
    (hpre : ∀ k, k < chunks.length → (chunks.take k).sum < i.totalSize) :
    (runChunksFrom env 0 chunks ⟨some i, [], al⟩).2 = true ∧
    (∃ i', (runChunksFrom env 0 chunks ⟨some i, [], al⟩).1.info = some i' ∧
      i'.uploadedSize = chunks.sum ∧
      ((runChunksFrom env 0 chunks ⟨some i, [], al⟩).1.parts.map
        (fun p => p.size)).sum = i'.uploadedSize) ∧
    (runChunksFrom env 0 chunks ⟨some i, [], al⟩).1.parts.map
      (fun p => p.partNumber) = List.range' 1 chunks.length := by
  have h := runChunksFrom_ok env etag r2o hUp hComp hIns hVer chunks i [] al
    hC (by simpa [hFresh] using hpre)
  rw [hFresh] at h
  rcases h with ⟨hok, ⟨i', hi', hsz⟩, hparts⟩
  refine ⟨hok, ⟨i', hi', by simpa using hsz, ?_⟩, ?_⟩
  · rw [hparts]
    simp [partsFor_map_size etag chunks 0, hsz]
  · rw [hparts]
    simpa using partsFor_map_partNumber etag chunks 0

/-- Witness for `c4_amended_order_invariant`: chunks `[2, 3]` on a fresh
5-byte session. -/
theorem c4_amended_order_invariant_witness :
    (runChunksFrom envAllOk 0 [2, 3] ⟨some (infoAt 5 0), [], none⟩).2 = true ∧
    (∃ i', (runChunksFrom envAllOk 0 [2, 3]
        ⟨some (infoAt 5 0), [], none⟩).1.info = some i' ∧
      i'.uploadedSize = [2, 3].sum ∧
      ((runChunksFrom envAllOk 0 [2, 3]
          ⟨some (infoAt 5 0), [], none⟩).1.parts.map
        (fun p => p.size)).sum = i'.uploadedSize) ∧
    (runChunksFrom envAllOk 0 [2, 3]
        ⟨some (infoAt 5 0), [], none⟩).1.parts.map
      (fun p => p.partNumber) = List.range' 1 [2, 3].length :=
  c4_amended_order_invariant envAllOk "e" ⟨"k", 0, "c"⟩ (infoAt 5 0) none
    [2, 3] rfl rfl rfl rfl rfl rfl (by decide)

end TusModel
